import Mathlib

/-!
Shallow embedding of `src/streamlit_app.py`, a single-file retrieval-augmented
question-answering app, together with proofs of the specified properties.

Modelling conventions:
* Python/numpy floating-point numbers are modelled by `ℝ`; this is exact in the
  regime where no operation produces a NaN or infinity.  The one place where the
  source can produce a NaN (the division in `cosine_similarity` when a divisor
  is zero) is modelled separately by `cosine_similarity_float`, whose codomain
  `Option ℝ` uses `none` for NaN.
* JSON values (the chunks artifact and Gemini response bodies) are modelled by
  the inductive type `JVal`; numbers and booleans never matter for the
  properties below, so they are omitted.
* External collaborators (the sentence-embedding model, the HTTP transport, and
  Python float formatting) are parameters of the functions that use them.
-/

namespace StreamlitApp

/-- JSON-like values: strings, arrays, and objects (association lists of
fields).  Used for the chunks artifact loaded by `load_data` and for Gemini
API response bodies. -/
inductive JVal : Type where
  | jstr : String → JVal
  | jarr : List JVal → JVal
  | jobj : List (String × JVal) → JVal

/-- Python `d[key]` / `d.get(key)` on a JSON value: a field lookup that yields
`none` when the value is not an object or the key is absent (Python raises
`KeyError`/`TypeError` there; the one caller, `ask_gemini`, catches every
exception, so `Option` is a faithful model). -/
def jGetKey : JVal → String → Option JVal
  | .jobj fields, key => fields.lookup key
  | _, _ => none

/-- Python `l[i]` on a JSON value: an index lookup that yields `none` when the
value is not an array or the index is out of range (Python raises there; the
one caller, `ask_gemini`, catches every exception). -/
def jGetIdx : JVal → Nat → Option JVal
  | .jarr elems, i => elems[i]?
  | _, _ => none

/-- The unwrap step of `load_data` (src/streamlit_app.py lines 23-25): after
parsing `chunks.json`, `if isinstance(chunks, dict) and "chunks" in chunks:
chunks = chunks["chunks"]`.  A wrapping object with a `"chunks"` field is
replaced by the value of that field; anything else is used as-is. -/
def load_chunks (chunks : JVal) : JVal :=
  match chunks with
  | .jobj fields =>
      match fields.lookup "chunks" with
      | some v => v
      | none => .jobj fields
  | other => other

/-- Chunk-text extraction on line 46:
`chunks[i] if isinstance(chunks[i], str) else chunks[i].get("text", "")`.
A plain string is used as-is; an object yields its `"text"` field with default
`""`.  (The source assumes every element is a string or a dict; a `"text"`
field holding a non-string would be returned unchanged by Python and never
occurs in the data this app ships with, so the model collapses it to `""`.) -/
def chunkText (c : JVal) : String :=
  match c with
  | .jstr s => s
  | .jobj fields =>
      match fields.lookup "text" with
      | some (.jstr t) => t
      | _ => ""
  | _ => ""

/-- Model of `np.dot` on two 1-D vectors: the sum of pairwise products. -/
def dotList (a b : List ℝ) : ℝ := (List.zipWith (· * ·) a b).sum

/-- Model of `np.linalg.norm` on a 1-D vector: the Euclidean norm, i.e. the square root
of the sum of squares (written here as the dot product of the vector with
itself). -/
noncomputable def euclidNorm (a : List ℝ) : ℝ := Real.sqrt (dotList a a)

/-- Model of `cosine_similarity` (lines 38-41):
`np.dot(a, b) / (np.linalg.norm(a) * np.linalg.norm(b))`, floats modelled by
`ℝ`.  Exact whenever the divisor is nonzero; the zero-divisor (NaN) case is
modelled by `cosine_similarity_float` below. -/
noncomputable def cosine_similarity (a b : List ℝ) : ℝ :=
  dotList a b / (euclidNorm a * euclidNorm b)

/-- Float-faithful view of the same division: numpy float division by a zero
divisor does not produce a real number (here the numerator is then also zero,
so the result is NaN).  `none` stands for NaN. -/
noncomputable def cosine_similarity_float (a b : List ℝ) : Option ℝ :=
  if euclidNorm a * euclidNorm b = 0 then none
  else some (dotList a b / (euclidNorm a * euclidNorm b))

/-- Spec-side definition, following the wording of the spec for the score operation:
the dot product of two vectors, "sum of the products of corresponding
entries". -/
def specDot (a b : List ℝ) : ℝ := ((a.zip b).map (fun p => p.1 * p.2)).sum

/-- Spec-side definition, following the wording of the spec: the Euclidean norm,
the square root of the sum of the squares of the entries. -/
noncomputable def specEuclidNorm (a : List ℝ) : ℝ :=
  Real.sqrt ((a.map (fun x => x ^ 2)).sum)

/-- Model of `np.argsort(scores)` (line 45): a list of the indices `0, ..., n-1`
reordered so that the scores read in that order are ascending.  the default numpy
sort is unstable on ties, so only the ordering contract is meaningful; a merge
sort realises it. -/
noncomputable def argsort (s : List ℝ) : List Nat :=
  (List.range s.length).mergeSort (fun i j => decide (s.getD i 0 ≤ s.getD j 0))

/-- The Python slice `l[-k:]` for `k ≥ 0` (line 45): the last `k` elements —
the whole list when `k = 0` (since `l[-0:] = l[0:] = l`) or when `k` is at
least the length. -/
def lastSlice {α : Type} (k : Nat) (l : List α) : List α :=
  if k = 0 then l else l.drop (l.length - k)

/-- Model of `get_top_k_chunks` (lines 43-46).  The source reads the module-level
`embeddings` and `chunks`; here they are parameters.  Scores every corpus
embedding against the query embedding, takes the `k` highest-scoring indices
in descending score order (`np.argsort(scores)[-k:][::-1]`), and pairs each
chunk text of each index with its score.  The Python `chunks[i]`/`scores[i]` indexing
is modelled with a default value; every produced index is below the number of
embeddings, so under the corpus-alignment invariant the default is never
used. -/
noncomputable def get_top_k_chunks (embeddings : List (List ℝ)) (chunks : List JVal)
    (query_embedding : List ℝ) (k : Nat) : List (String × ℝ) :=
  let scores := embeddings.map (fun emb => cosine_similarity query_embedding emb)
  let top_k_idx := (lastSlice k (argsort scores)).reverse
  top_k_idx.map (fun i => (chunkText (chunks.getD i (.jstr "")), scores.getD i 0))

/-- The result of `requests.post` as `ask_gemini` observes it: a status code
and a parsed JSON body. -/
structure HttpResponse where
  status_code : Nat
  body : JVal

/-- The extraction `result["candidates"][0]["content"]["parts"][0]["text"]`
on line 59, each step fallible; `none` models the exception that the
surrounding `try/except` catches. -/
def extractCandidateText (result : JVal) : Option JVal :=
  ((((jGetKey result "candidates").bind (fun c => jGetIdx c 0)).bind
        (fun c => jGetKey c "content")).bind
      (fun c => jGetKey c "parts")).bind
    (fun p => (jGetIdx p 0).bind (fun p0 => jGetKey p0 "text"))

/-- Model of `ask_gemini` (lines 49-63), with the network call modelled by passing in
the `HttpResponse` the Gemini endpoint returned.  On status 200 it returns the
extracted candidate text, or the fixed format-error string when the nested
fields are missing; on any other status it returns an error string naming the
status code.  It never raises. -/
def ask_gemini (resp : HttpResponse) : JVal :=
  if resp.status_code = 200 then
    match extractCandidateText resp.body with
    | some v => v
    | none => .jstr "[Error: Unexpected Gemini API response format]"
  else
    .jstr ("[Error: Gemini API returned " ++ toString resp.status_code ++ "]")

/-- Python `str.strip()` with no argument (line 76): the string with leading
and trailing whitespace removed.  In Python the guard `if submitted and
query.strip():` tests this for truthiness, i.e. non-emptiness. -/
def pyStrip (s : String) : String :=
  ⟨((s.data.dropWhile Char.isWhitespace).reverse.dropWhile Char.isWhitespace).reverse⟩

/-- One element of `st.session_state.chat_history` (line 85): the dict
`{"question": query, "answer": answer, "context": context}`. -/
structure Turn where
  question : String
  answer : JVal
  context : String

/-- Which external calls one pass through the submission block performed:
whether `embedder.encode` ran (line 78), whether the corpus was scanned by
`get_top_k_chunks` (line 79), and whether the Gemini endpoint was called
(line 84).  The straight-line block of the source performs all three or none. -/
structure CycleEffects where
  embedded : Bool
  retrieved : Bool
  generated : Bool

/-- The context string of lines 80-82: the retrieved `(chunk, score)` pairs
rendered as numbered context blocks joined by a separator.  `fmt` models
the Python `.4f` float formatting, which is below the resolution of this real-
number model. -/
def buildContext (fmt : ℝ → String) (top_chunks : List (String × ℝ)) : String :=
  String.intercalate "\n\n---\n\n"
    (top_chunks.enum.map (fun p =>
      "[Context " ++ toString (p.1 + 1) ++ " - Similarity: " ++ fmt p.2.2 ++
        "]\n" ++ p.2.1))

/-- One pass through the query-submission block (lines 76-85).  `encode`
models `embedder.encode` (the external sentence-embedding model), `fmt` models
Python float formatting, and `resp` is the HTTP response the Gemini endpoint
returns for the request of this turn.  The guard is the line
`if submitted and query.strip():` of the source — Python `str.strip` truthiness is
non-emptiness of the trimmed string.  Returns the new chat history together
with the record of which external calls were performed.  (The prompt string
assembled on line 83 only feeds the external request and does not affect the
returned state, so it is not reproduced here.) -/
noncomputable def run_cycle (encode : String → List ℝ) (fmt : ℝ → String)
    (embeddings : List (List ℝ)) (chunks : List JVal) (resp : HttpResponse)
    (hist : List Turn) (submitted : Bool) (query : String) :
    List Turn × CycleEffects :=
  if submitted = true ∧ pyStrip query ≠ "" then
    let query_embedding := encode query
    let top_chunks := get_top_k_chunks embeddings chunks query_embedding 5
    let context := buildContext fmt top_chunks
    let answer := ask_gemini resp
    (hist ++ [⟨query, answer, context⟩], ⟨true, true, true⟩)
  else
    (hist, ⟨false, false, false⟩)

/-- The rendering order of the history display (line 88):
`for chat in reversed(st.session_state.chat_history)` — most recent first. -/
def render_history (hist : List Turn) : List Turn := hist.reverse

/-- Lemma: `argsort` orders the indices so that the scores read in that order are
ascending. -/
theorem argsort_pairwise (s : List ℝ) :
    (argsort s).Pairwise (fun i j => s.getD i 0 ≤ s.getD j 0) := by
  have h := @List.sorted_mergeSort Nat (fun i j => decide (s.getD i 0 ≤ s.getD j 0))
    (fun a b c hab hbc => by
      simp only [decide_eq_true_eq] at *
      exact le_trans hab hbc)
    (fun a b => by
      simp only [Bool.or_eq_true, decide_eq_true_eq]
      exact le_total _ _)
    (List.range s.length)
  unfold argsort
  exact List.Pairwise.imp (fun hab => by simpa using hab) h

/-- Lemma: `argsort` returns one index per score. -/
theorem argsort_length (s : List ℝ) : (argsort s).length = s.length := by
  simp [argsort]

/-- Length of the Python slice `l[-k:]` for `k ≥ 1`. -/
theorem lastSlice_length {α : Type} (k : Nat) (l : List α) (hk : 1 ≤ k) :
    (lastSlice k l).length = min k l.length := by
  unfold lastSlice
  rw [if_neg (by omega), List.length_drop]
  omega

/-- The slice `l[-k:]` keeps any pairwise ordering of `l`. -/
theorem lastSlice_pairwise {α : Type} (r : α → α → Prop) (k : Nat) (l : List α)
    (h : l.Pairwise r) : (lastSlice k l).Pairwise r := by
  unfold lastSlice
  split
  · exact h
  · exact h.sublist (List.drop_sublist _ _)

/-- Equation: `get_top_k_chunks` with its let-bindings expanded. -/
theorem get_top_k_chunks_eq (E : List (List ℝ)) (chunks : List JVal) (q : List ℝ)
    (k : Nat) :
    get_top_k_chunks E chunks q k =
      (lastSlice k (argsort (E.map (fun emb => cosine_similarity q emb)))).reverse.map
        (fun i => (chunkText (chunks.getD i (.jstr "")),
          (E.map (fun emb => cosine_similarity q emb)).getD i 0)) := rfl

/-- The scores in a `get_top_k_chunks` result are non-increasing, for every
corpus, query and `k`. -/
theorem get_top_k_sorted (E : List (List ℝ)) (chunks : List JVal) (q : List ℝ)
    (k : Nat) :
    ((get_top_k_chunks E chunks q k).map Prod.snd).Sorted (· ≥ ·) := by
  rw [get_top_k_chunks_eq, List.map_map, List.Sorted, List.pairwise_map,
    List.pairwise_reverse]
  exact List.Pairwise.imp (fun hab => hab)
    (lastSlice_pairwise _ k _
      (argsort_pairwise (E.map (fun emb => cosine_similarity q emb))))

/-- Lemma: `get_top_k_chunks` returns `min k n` pairs when `k ≥ 1`. -/
theorem get_top_k_length (E : List (List ℝ)) (chunks : List JVal) (q : List ℝ)
    (k : Nat) (hk : 1 ≤ k) :
    (get_top_k_chunks E chunks q k).length = min k E.length := by
  rw [get_top_k_chunks_eq, List.length_map, List.length_reverse,
    lastSlice_length _ _ hk, argsort_length, List.length_map]

/-- C1: for every aligned corpus whose similarity scores are all well defined
(no zero-norm divisor, hence no NaN, so the real-valued model is exact) and
every `K` with `1 ≤ K ≤ n`, `get_top_k_chunks` returns exactly `K`
(chunk text, score) pairs sorted by non-increasing score. -/
theorem get_top_k_exact_count_sorted (E : List (List ℝ)) (chunks : List JVal)
    (q : List ℝ) (k : Nat)
    (halign : E.length = chunks.length)
    (hwd : ∀ e ∈ E, euclidNorm q * euclidNorm e ≠ 0)
    (hk1 : 1 ≤ k) (hk2 : k ≤ E.length) :
    (get_top_k_chunks E chunks q k).length = k ∧
    ((get_top_k_chunks E chunks q k).map Prod.snd).Sorted (· ≥ ·) := by
  refine ⟨?_, get_top_k_sorted E chunks q k⟩
  rw [get_top_k_length E chunks q k hk1]
  omega

/-- Witness for C1 at the corpus `[[1,0],[0,1]]` / `["A","B"]`, query `[1,0]`,
`K = 2`. -/
theorem get_top_k_exact_count_sorted_witness :
    ([[(1 : ℝ), 0], [0, 1]].length = [JVal.jstr "A", JVal.jstr "B"].length ∧
      (∀ e ∈ [[(1 : ℝ), 0], [0, 1]], euclidNorm [1, 0] * euclidNorm e ≠ 0) ∧
      1 ≤ 2 ∧ 2 ≤ [[(1 : ℝ), 0], [0, 1]].length) ∧
    ((get_top_k_chunks [[1, 0], [0, 1]] [JVal.jstr "A", JVal.jstr "B"] [1, 0] 2).length = 2 ∧
      ((get_top_k_chunks [[1, 0], [0, 1]] [JVal.jstr "A", JVal.jstr "B"] [1, 0] 2).map
        Prod.snd).Sorted (· ≥ ·)) := by
  have hwd : ∀ e ∈ [[(1 : ℝ), 0], [0, 1]], euclidNorm [1, 0] * euclidNorm e ≠ 0 := by
    intro e he
    simp only [List.mem_cons, List.not_mem_nil, or_false] at he
    rcases he with rfl | rfl <;> norm_num [euclidNorm, dotList]
  exact ⟨⟨rfl, hwd, by norm_num, by norm_num⟩,
    get_top_k_exact_count_sorted [[1, 0], [0, 1]] [JVal.jstr "A", JVal.jstr "B"]
      [1, 0] 2 rfl hwd (by norm_num) (by norm_num)⟩

/-- C4: for every non-empty aligned corpus with well-defined scores and every
`K` exceeding the corpus size, `get_top_k_chunks` returns exactly `n` pairs
(the whole corpus, ranked), sorted by non-increasing score, and no error is
raised. -/
theorem get_top_k_overflow (E : List (List ℝ)) (chunks : List JVal)
    (q : List ℝ) (k : Nat)
    (halign : E.length = chunks.length)
    (hwd : ∀ e ∈ E, euclidNorm q * euclidNorm e ≠ 0)
    (hne : E ≠ []) (hk : E.length < k) :
    (get_top_k_chunks E chunks q k).length = E.length ∧
    ((get_top_k_chunks E chunks q k).map Prod.snd).Sorted (· ≥ ·) := by
  refine ⟨?_, get_top_k_sorted E chunks q k⟩
  have hpos : 0 < E.length := List.length_pos.mpr hne
  rw [get_top_k_length E chunks q k (by omega)]
  omega

/-- Witness for C4 at the one-entry corpus `[[1,0]]` / `["A"]`, query `[1,0]`,
`K = 5`. -/
theorem get_top_k_overflow_witness :
    ([[(1 : ℝ), 0]].length = [JVal.jstr "A"].length ∧
      (∀ e ∈ [[(1 : ℝ), 0]], euclidNorm [1, 0] * euclidNorm e ≠ 0) ∧
      [[(1 : ℝ), 0]] ≠ ([] : List (List ℝ)) ∧ [[(1 : ℝ), 0]].length < 5) ∧
    ((get_top_k_chunks [[1, 0]] [JVal.jstr "A"] [1, 0] 5).length = [[(1 : ℝ), 0]].length ∧
      ((get_top_k_chunks [[1, 0]] [JVal.jstr "A"] [1, 0] 5).map
        Prod.snd).Sorted (· ≥ ·)) := by
  have hwd : ∀ e ∈ [[(1 : ℝ), 0]], euclidNorm [1, 0] * euclidNorm e ≠ 0 := by
    intro e he
    simp only [List.mem_cons, List.not_mem_nil, or_false] at he
    rcases he with rfl
    norm_num [euclidNorm, dotList]
  exact ⟨⟨rfl, hwd, by simp, by norm_num⟩,
    get_top_k_overflow [[1, 0]] [JVal.jstr "A"] [1, 0] 5 rfl hwd (by simp)
      (by norm_num)⟩

/-- C5: for the empty corpus, `get_top_k_chunks` returns the empty list for
every query and every `K`, and no error is raised. -/
theorem get_top_k_empty (q : List ℝ) (k : Nat) :
    get_top_k_chunks [] [] q k = [] := by
  rw [get_top_k_chunks_eq]
  unfold argsort lastSlice
  simp

/-- Lemma: `np.dot` of the source agrees with the spec-side dot product on any two
vectors. -/
theorem dotList_eq_specDot (a b : List ℝ) : dotList a b = specDot a b := by
  induction a generalizing b with
  | nil => simp [dotList, specDot]
  | cons x xs ih =>
    cases b with
    | nil => simp [dotList, specDot]
    | cons y ys =>
      have h1 : dotList (x :: xs) (y :: ys) = x * y + dotList xs ys := by
        simp [dotList]
      have h2 : specDot (x :: xs) (y :: ys) = x * y + specDot xs ys := by
        simp [specDot]
      rw [h1, h2, ih ys]

/-- Lemma: `np.linalg.norm` of the source agrees with the spec-side Euclidean norm. -/
theorem euclidNorm_eq_specEuclidNorm (a : List ℝ) :
    euclidNorm a = specEuclidNorm a := by
  unfold euclidNorm specEuclidNorm
  congr 1
  induction a with
  | nil => simp [dotList]
  | cons x xs ih =>
    have h1 : dotList (x :: xs) (x :: xs) = x * x + dotList xs xs := by
      simp [dotList]
    simp [h1, ih, pow_two]

/-- C2: for equal-length vectors with nonzero Euclidean norms, the score
operation returns the dot product divided by the product of the Euclidean
norms (spec-side definitions). -/
theorem cosine_similarity_is_spec (a b : List ℝ) (hlen : a.length = b.length)
    (ha : specEuclidNorm a ≠ 0) (hb : specEuclidNorm b ≠ 0) :
    cosine_similarity a b =
      specDot a b / (specEuclidNorm a * specEuclidNorm b) := by
  unfold cosine_similarity
  rw [dotList_eq_specDot, euclidNorm_eq_specEuclidNorm,
    euclidNorm_eq_specEuclidNorm]

/-- Witness for C2 at `a = [1,0]`, `b = [0,1]`. -/
theorem cosine_similarity_is_spec_witness :
    ([(1 : ℝ), 0].length = [(0 : ℝ), 1].length ∧
      specEuclidNorm [(1 : ℝ), 0] ≠ 0 ∧ specEuclidNorm [(0 : ℝ), 1] ≠ 0) ∧
    cosine_similarity [(1 : ℝ), 0] [(0 : ℝ), 1] =
      specDot [(1 : ℝ), 0] [(0 : ℝ), 1] /
        (specEuclidNorm [(1 : ℝ), 0] * specEuclidNorm [(0 : ℝ), 1]) := by
  have ha : specEuclidNorm [(1 : ℝ), 0] ≠ 0 := by norm_num [specEuclidNorm]
  have hb : specEuclidNorm [(0 : ℝ), 1] ≠ 0 := by norm_num [specEuclidNorm]
  exact ⟨⟨rfl, ha, hb⟩, cosine_similarity_is_spec [1, 0] [0, 1] rfl ha hb⟩

/-- C3 (the code at the failing input): scoring the zero vector against
`[1, 0]` divides by a zero divisor, so the float result is NaN (`none` in the
float-faithful model) — not a defined sentinel lowest-priority score and not a
signal distinct from an ordinary undefined float. -/
theorem cosine_similarity_zero_norm_nan :
    cosine_similarity_float [0, 0] [1, 0] = none := by
  have h : euclidNorm [0, 0] = 0 := by norm_num [euclidNorm, dotList]
  unfold cosine_similarity_float
  rw [h]
  simp

/-- C6: loading a chunks artifact wrapped in an object under the key
`"chunks"` yields the same ordered chunk sequence as loading the bare array
directly. -/
theorem load_chunks_roundtrip (xs : List JVal) :
    load_chunks (.jobj [("chunks", .jarr xs)]) = load_chunks (.jarr xs) := rfl

/-- C7: on any non-200 response, `ask_gemini` returns (never raises) an error
string that contains the status code; the string is the fixed error text with
the code interpolated. -/
theorem ask_gemini_non_200 (resp : HttpResponse) (h : resp.status_code ≠ 200) :
    ask_gemini resp =
      .jstr ("[Error: Gemini API returned " ++ toString resp.status_code ++ "]") ∧
    ∃ pre post,
      "[Error: Gemini API returned " ++ toString resp.status_code ++ "]" =
        pre ++ toString resp.status_code ++ post := by
  refine ⟨?_, "[Error: Gemini API returned ", "]", rfl⟩
  unfold ask_gemini
  rw [if_neg h]

/-- Witness for C7 at a 500 response: the answer is an error string containing
"500". -/
theorem ask_gemini_non_200_witness :
    ((500 : Nat) ≠ 200) ∧
    (ask_gemini ⟨500, .jobj []⟩ =
        .jstr ("[Error: Gemini API returned " ++ toString (500 : Nat) ++ "]") ∧
      ∃ pre post,
        "[Error: Gemini API returned " ++ toString (500 : Nat) ++ "]" =
          pre ++ toString (500 : Nat) ++ post) := by
  exact ⟨by norm_num, ask_gemini_non_200 ⟨500, .jobj []⟩ (by norm_num)⟩

/-- C8: on a 200 response whose JSON body is missing the expected nested
fields `candidates[0].content.parts[0].text`, `ask_gemini` returns the fixed
"unexpected format" error string instead of propagating the exception. -/
theorem ask_gemini_unexpected_format (resp : HttpResponse)
    (h200 : resp.status_code = 200)
    (hmiss : extractCandidateText resp.body = none) :
    ask_gemini resp = .jstr "[Error: Unexpected Gemini API response format]" := by
  unfold ask_gemini
  rw [if_pos h200, hmiss]

/-- Witness for C8 at a 200 response with an empty-object body. -/
theorem ask_gemini_unexpected_format_witness :
    ((HttpResponse.mk 200 (.jobj [])).status_code = 200 ∧
      extractCandidateText (HttpResponse.mk 200 (.jobj [])).body = none) ∧
    ask_gemini ⟨200, .jobj []⟩ =
      .jstr "[Error: Unexpected Gemini API response format]" := by
  exact ⟨⟨rfl, rfl⟩, ask_gemini_unexpected_format ⟨200, .jobj []⟩ rfl rfl⟩

/-- C9: a completed query cycle (submitted, non-blank query) appends exactly
one (question, answer, context) turn to the chat history, leaves every
previously recorded turn unchanged, and the rendered history is
most-recent-first (the new turn first, then the old turns newest-first). -/
theorem run_cycle_appends_one_turn (encode : String → List ℝ) (fmt : ℝ → String)
    (E : List (List ℝ)) (chunks : List JVal) (resp : HttpResponse)
    (hist : List Turn) (query : String) (hq : pyStrip query ≠ "") :
    (run_cycle encode fmt E chunks resp hist true query).1 =
      hist ++ [⟨query, ask_gemini resp,
        buildContext fmt (get_top_k_chunks E chunks (encode query) 5)⟩] ∧
    (run_cycle encode fmt E chunks resp hist true query).1.take hist.length = hist ∧
    render_history (run_cycle encode fmt E chunks resp hist true query).1 =
      ⟨query, ask_gemini resp,
          buildContext fmt (get_top_k_chunks E chunks (encode query) 5)⟩ ::
        hist.reverse := by
  have hrun : (run_cycle encode fmt E chunks resp hist true query).1 =
      hist ++ [⟨query, ask_gemini resp,
        buildContext fmt (get_top_k_chunks E chunks (encode query) 5)⟩] := by
    unfold run_cycle
    rw [if_pos ⟨rfl, hq⟩]
  refine ⟨hrun, ?_, ?_⟩
  · rw [hrun, List.take_left]
  · unfold render_history
    rw [hrun]
    simp

/-- Witness for C9 at the query "hello" on an empty corpus and empty prior
history. -/
theorem run_cycle_appends_one_turn_witness :
    (pyStrip "hello" ≠ "") ∧
    ((run_cycle (fun _ => []) (fun _ => "") [] [] ⟨200, .jobj []⟩ [] true "hello").1 =
        [] ++ [⟨"hello", ask_gemini ⟨200, .jobj []⟩,
          buildContext (fun _ => "") (get_top_k_chunks [] [] ((fun _ => []) "hello") 5)⟩] ∧
      (run_cycle (fun _ => []) (fun _ => "") [] [] ⟨200, .jobj []⟩ [] true
          "hello").1.take ([] : List Turn).length = [] ∧
      render_history
          (run_cycle (fun _ => []) (fun _ => "") [] [] ⟨200, .jobj []⟩ [] true "hello").1 =
        ⟨"hello", ask_gemini ⟨200, .jobj []⟩,
            buildContext (fun _ => "") (get_top_k_chunks [] [] ((fun _ => []) "hello") 5)⟩ ::
          ([] : List Turn).reverse) := by
  exact ⟨by decide,
    run_cycle_appends_one_turn (fun _ => []) (fun _ => "") [] [] ⟨200, .jobj []⟩ []
      "hello" (by decide)⟩

/-- C10: a submission whose query is empty or whitespace-only is skipped
entirely: the chat history is unchanged and no embedding, retrieval, or
generation call is performed. -/
theorem run_cycle_blank_query (encode : String → List ℝ) (fmt : ℝ → String)
    (E : List (List ℝ)) (chunks : List JVal) (resp : HttpResponse)
    (hist : List Turn) (submitted : Bool) (query : String)
    (hq : pyStrip query = "") :
    run_cycle encode fmt E chunks resp hist submitted query =
      (hist, ⟨false, false, false⟩) := by
  unfold run_cycle
  rw [if_neg (by simp [hq])]

/-- Witness for C10 at the whitespace query "  " with submitted = true. -/
theorem run_cycle_blank_query_witness :
    (pyStrip "  " = "") ∧
    run_cycle (fun _ => []) (fun _ => "") [] [] ⟨200, .jobj []⟩ [] true "  " =
      (([] : List Turn), ⟨false, false, false⟩) := by
  exact ⟨by decide,
    run_cycle_blank_query (fun _ => []) (fun _ => "") [] [] ⟨200, .jobj []⟩ [] true
      "  " (by decide)⟩

end StreamlitApp
